import Mathlib

/-!
Verification of the optcoin-bot orchestration and workflow core.

Shallow embedding of:
  - `src/optcoin_bot/utils/retry.py` (`async_retry`)
  - `src/optcoin_bot/orchestrator.py` (`orchestrate_accounts`)
  - `src/optcoin_bot/actions.py` (`run_submit_order_for_account`)
  - `src/optcoin_bot/core/workflow.py` (`OptcoinWorkflow.execute_submit_order`,
    `_step_login`, `_step_enter_order_and_recognize`, `_step_confirm_order`)

External effects (the Playwright automation surface, the filesystem, the
clock) are modelled as explicit environment records: each boolean field
records the outcome of one awaited external operation, clock advance during
the body is a natural number (the wall clock is monotone), and
automation-surface interactions are collected into an explicit trace list.
Python dicts with conditional keys become structures with `Option` fields.
-/

/-- One UI interaction performed against the browser-automation surface. -/
inductive PageAction where
  | goto (url : String)
  | fill (selector value : String)
  | click (selector : String)
  | waitFor (selector : String)
  | waitTimeout (ms : Nat)
deriving DecidableEq, Repr

/-- The per-step result dict built by the `_step_*` methods of
`OptcoinWorkflow`.  Keys that are only sometimes present in the Python dict
are `Option` fields / defaulted booleans. -/
structure StepResult where
  step : String
  success : Bool
  error : Option String := none
  alert_message : Option String := none
  order_number : Option String := none
  simulated : Bool := false
  cached : Bool := false
deriving DecidableEq, Repr

/-- The report dict built by `OptcoinWorkflow.execute_submit_order`.
Timestamps are integers from a monotone wall clock. -/
structure AccountReport where
  account_name : String
  order_number : String
  dry_run : Bool
  start_time_utc : Int
  steps : List StepResult
  success : Bool
  error : Option String
  end_time_utc : Int
  duration_seconds : Int
deriving DecidableEq, Repr

/-! ## Orchestrator concurrency clamp (`orchestrator.py` line 21)

`limit = max(1, min(int(max_concurrency or 1), 10))`.  Python's `or`
replaces a falsy (zero) configured value by 1 before clamping. -/

def orchestratorLimit (max_concurrency : Int) : Int :=
  max 1 (min (if max_concurrency = 0 then 1 else max_concurrency) 10)

/-! ## Step executor (`utils/retry.py`, `async_retry`)

The decorated coroutine is modelled by the outcome of each invocation:
`attempts i` is what the wrapped step does on its `i`-th call (1-indexed),
either a returned value or a raised exception.  The Python loop
`for attempt in range(1, max_attempts + 1)` retries on a caught exception
while attempts remain and re-raises the last exception otherwise. -/

def async_retry {E R : Type} (attempts : Nat → Except E R)
    (attempt max_attempts : Nat) : Except E R :=
  match attempts attempt with
  | Except.ok r => Except.ok r
  | Except.error e =>
    if h : attempt < max_attempts then
      async_retry attempts (attempt + 1) max_attempts
    else
      Except.error e
termination_by max_attempts - attempt
decreasing_by simp_wf; omega

/-- If every attempt strictly before `k` raises and attempt `k` returns `r`,
the retry loop started at `j ≤ k` returns `r` (with `k` within budget). -/
theorem async_retry_ok_of_attempt {E R : Type} (attempts : Nat → Except E R)
    (A : Nat) (r : R) :
    ∀ (n k j : Nat), k - j = n → j ≤ k → k ≤ A →
      (∀ i, j ≤ i → i < k → ∃ e, attempts i = Except.error e) →
      attempts k = Except.ok r →
      async_retry attempts j A = Except.ok r := by
  intro n
  induction n with
  | zero =>
    intro k j hn hj _ _ hok
    have hjk : j = k := by omega
    unfold async_retry
    rw [hjk, hok]
  | succ n ih =>
    intro k j hn hj hkA hfail hok
    have hjk : j < k := by omega
    obtain ⟨e, he⟩ := hfail j le_rfl hjk
    unfold async_retry
    rw [he]
    have hjA : j < A := by omega
    simp only [hjA, dif_pos]
    exact ih k (j + 1) (by omega) (by omega) hkA
      (fun i hi hik => hfail i (by omega) hik) hok

/-- If every attempt from `j` through `A` raises, the retry loop started at
`j ≤ A` re-raises the exception of attempt `A` (the last one). -/
theorem async_retry_error_of_all_fail {E R : Type} (attempts : Nat → Except E R)
    (A : Nat) (es : Nat → E) :
    ∀ (n j : Nat), A - j = n → j ≤ A →
      (∀ i, j ≤ i → i ≤ A → attempts i = Except.error (es i)) →
      async_retry attempts j A = Except.error (es A) := by
  intro n
  induction n with
  | zero =>
    intro j hn hj hfail
    have hjA : j = A := by omega
    unfold async_retry
    rw [hfail j le_rfl hj]
    have : ¬ j < A := by omega
    simp only [this, dif_neg, not_false_iff]
    rw [hjA]
  | succ n ih =>
    intro j hn hj hfail
    have hjA : j < A := by omega
    unfold async_retry
    rw [hfail j le_rfl hj]
    simp only [hjA, dif_pos]
    exact ih (j + 1) (by omega) (by omega)
      (fun i hi hiA => hfail i (by omega) hiA)

/-! ## String primitives

Python's `needle in haystack` substring test and `str.lower()`, modelled
over the character lists of Lean strings.  `Char.toLower` agrees with
Python's `lower()` on the ASCII alert texts the workflow matches against. -/

/-- `charsStartWith needle hay` holds when `needle` occurs at the head of
`hay`. -/
def charsStartWith : List Char → List Char → Bool
  | [], _ => true
  | _ :: _, [] => false
  | a :: p, b :: s => a == b && charsStartWith p s

/-- `charsContain needle hay`: `needle` occurs contiguously in `hay`
(Python `needle in hay`). -/
def charsContain (needle : List Char) : List Char → Bool
  | [] => charsStartWith needle []
  | b :: s => charsStartWith needle (b :: s) || charsContain needle s

/-- Python `needle in hay` on strings. -/
def hasSub (hay needle : String) : Bool :=
  charsContain needle.data hay.data

/-- Python `str.lower()` (ASCII case folding). -/
def lowerStr (s : String) : String :=
  String.mk (s.data.map Char.toLower)

/-! ## Alert classification

`_step_enter_order_and_recognize` (workflow.py lines 290-297) and
`_step_confirm_order` (workflow.py lines 328-343) each turn a captured
alert text into the step's result dict. -/

/-- The "already followed" phrase family of the recognize step
(workflow.py line 292). -/
def recognizeSuccessPhrases : List String :=
  ["already followed", "already", "suivi", "followed", "已跟", "跟单", "已关注", "已跟随", "跟随"]

/-- The "invalid / not found" phrase family of the recognize step
(workflow.py line 295). -/
def recognizeErrorPhrases : List String :=
  ["invalid", "not found", "error", "incorrect", "not exist", "invalide", "non trouvé", "erreur"]

/-- `any(phrase in msg_lower for phrase in [...])` for the recognize step's
success family. -/
def recognizeAlertSuccess (msg : String) : Bool :=
  recognizeSuccessPhrases.any (fun p => hasSub (lowerStr msg) p)

/-- `any(error_phrase in msg_lower for error_phrase in [...])` for the
recognize step's definite-failure family. -/
def recognizeAlertError (msg : String) : Bool :=
  recognizeErrorPhrases.any (fun p => hasSub (lowerStr msg) p)

/-- The result dict the recognize step builds from a captured alert
(workflow.py lines 290-297). -/
def classifyRecognizeAlert (order_number msg : String) : StepResult :=
  if recognizeAlertSuccess msg then
    { step := "enter_order_and_recognize", success := true,
      order_number := some order_number, alert_message := some msg }
  else if recognizeAlertError msg then
    { step := "enter_order_and_recognize", success := false,
      error := some ("Code d'ordre invalide : " ++ msg), alert_message := some msg }
  else
    { step := "enter_order_and_recognize", success := false,
      error := some ("La reconnaissance a échoué : " ++ msg), alert_message := some msg }

/-- The secondary terms of the confirm step's "already" test
(workflow.py line 330). -/
def confirmAlreadyTerms : List String :=
  ["follow", "followed", "follow this", "已跟", "跟单", "已关注", "已跟随", "跟随"]

/-- `"already followed the order" in msg_lower or ("already" in msg_lower
and any(term in msg_lower for term in [...]))` (workflow.py line 330). -/
def confirmAlreadyFamily (msg : String) : Bool :=
  hasSub (lowerStr msg) "already followed the order" ||
    (hasSub (lowerStr msg) "already" &&
      confirmAlreadyTerms.any (fun t => hasSub (lowerStr msg) t))

/-- The distinguished reason used when the raw (case-sensitive) alert text
contains `"Invalid parameter"` (workflow.py lines 335-336). -/
def confirmInvalidParamReason : String :=
  "Paramètre invalide détecté lors de la confirmation. Le numéro d'ordre est probablement expiré ou incorrect."

/-- The generic reason carrying the raw alert text (workflow.py line 334). -/
def confirmGenericReason (msg : String) : String :=
  "La confirmation a retourné une alerte : " ++ msg

/-- The result dict the confirm step builds from a captured alert
(workflow.py lines 328-343). -/
def classifyConfirmAlert (msg : String) : StepResult :=
  if confirmAlreadyFamily msg then
    { step := "confirm_order", success := true, alert_message := some msg }
  else
    { step := "confirm_order", success := false,
      error := some (if hasSub msg "Invalid parameter" then confirmInvalidParamReason
                     else confirmGenericReason msg),
      alert_message := some msg }

example : recognizeAlertSuccess "Already followed the order" = true := by decide
example : confirmAlreadyFamily "Already followed the order" = true := by decide
example : confirmAlreadyFamily "Invalid parameter xyz" = false := by decide
example : hasSub "Invalid parameter xyz" "Invalid parameter" = true := by decide
example : hasSub "invalid parameter xyz" "Invalid parameter" = false := by decide

/-! ## Workflow engine (`execute_submit_order`, workflow.py lines 86-158)

A step, when attempted, performs some automation-surface interactions and
produces a `StepResult`; the five step behaviours for a run are supplied by
the environment.  The `for step_func in steps_to_execute` loop appends each
result and raises on the first `success == False`, which the surrounding
`try` turns into the report's top-level error. -/

/-- The behaviour of one step of the fixed sequence when it is attempted. -/
structure StepExec where
  result : StepResult
  actions : List PageAction
deriving DecidableEq, Repr

/-- The environment of one `execute_submit_order` run: the browser context
argument, the five step behaviours, the minimum-run configuration, and the
clock advance during the `try` body. -/
structure WorkflowEnv where
  hasContext : Bool
  stepExecs : List StepExec
  enforceMinRun : Bool
  minRunSeconds : Nat
  bodyElapsed : Nat
deriving DecidableEq, Repr

/-- Python `str(x)` on an optional dict entry (`None` prints as "None"). -/
def pyStr : Option String → String
  | some s => s
  | none => "None"

/-- The exception message raised at the first failing step
(workflow.py line 137). -/
def stepFailureMessage (r : StepResult) : String :=
  "L'étape '" ++ r.step ++ "' a échoué : " ++ pyStr r.error

/-- The step loop: appended results, performed interactions, and the raised
exception message, if any (workflow.py lines 133-137). -/
def runLoop : List StepExec → List StepResult × List PageAction × Option String
  | [] => ([], [], none)
  | se :: rest =>
    if se.result.success then
      let t := runLoop rest
      (se.result :: t.1, se.actions ++ t.2.1, t.2.2)
    else
      ([se.result], se.actions, some (stepFailureMessage se.result))

/-- The exception message of the missing-context guard
(workflow.py line 120). -/
def noContextMessage : String :=
  "BrowserContext non fourni pour l'exécution réelle."

/-- The elapsed seconds after the optional minimum-run padding
(workflow.py lines 148-153): sleeping the remaining time brings the elapsed
time up to `min_run_seconds`. -/
def paddedElapsed (env : WorkflowEnv) : Nat :=
  if env.enforceMinRun && env.bodyElapsed < env.minRunSeconds then
    env.minRunSeconds
  else
    env.bodyElapsed

/-- `OptcoinWorkflow.execute_submit_order` (workflow.py lines 86-158):
total by construction — every exception path of the Python `try` is a
branch producing a report.  Also returns the trace of automation-surface
interactions performed during the run. -/
def execute_submit_order (username order_number : String) (dry_run : Bool)
    (env : WorkflowEnv) (startTime : Int) : AccountReport × List PageAction :=
  let base : AccountReport :=
    { account_name := username, order_number := order_number,
      dry_run := dry_run, start_time_utc := startTime,
      steps := [], success := false, error := none,
      end_time_utc := startTime + (paddedElapsed env : Int),
      duration_seconds := (paddedElapsed env : Int) }
  if dry_run then
    ({ base with steps := [], success := true }, [])
  else if env.hasContext = false then
    ({ base with success := false, error := some noContextMessage }, [])
  else
    let t := runLoop env.stepExecs
    ({ base with steps := t.1,
                 success := (t.2.2).isNone,
                 error := t.2.2 }, t.2.1)

/-! ## Account scheduler (`orchestrator.py` lines 13-57) and the per-account
action wrapper (`actions.py` lines 54-99)

`orchestrate_accounts` creates one worker task per account and collects
them with `asyncio.gather(*tasks, return_exceptions=True)`: one outcome per
input account, a raised exception becoming an `Except.error` placeholder in
the returned collection.  Each worker's outcome is a function of its own
account only. -/

/-- One account credential record (`config.AccountCredentials`). -/
structure AccountCredentials where
  account_name : String
  username : String
  password : String
deriving DecidableEq, Repr

/-- What `run_submit_order_for_account` hands back to the scheduler: the
workflow's report, or the fallback dict built in its `except` clause. -/
inductive AccountOutcome where
  | report (r : AccountReport)
  | fallback (account_name : String) (error : String)
deriving DecidableEq, Repr

/-- `run_submit_order_for_account` (actions.py lines 54-99): the body
(page creation, workflow run, notification) either yields a report or
raises; a raised exception is caught and converted into the fallback dict
`{"account_name": ..., "success": False, "error": str(e)}`. -/
def run_submit_order_for_account (account : AccountCredentials)
    (body : Except String AccountReport) : AccountOutcome :=
  match body with
  | Except.ok r => AccountOutcome.report r
  | Except.error e => AccountOutcome.fallback account.account_name e

/-- Whether an `AccountOutcome` is a failed outcome for the given account:
a report for that account with `success == False`, or the fallback dict for
that account. -/
def AccountOutcome.failedFor (o : AccountOutcome) (name : String) : Prop :=
  match o with
  | AccountOutcome.report r => r.account_name = name ∧ r.success = false
  | AccountOutcome.fallback n _ => n = name

/-- `orchestrate_accounts` (orchestrator.py lines 13-57): one worker per
account, gathered with `return_exceptions=True`.  `runForAccount a` is the
outcome of account `a`'s worker — a value, or the exception the gather
captures. -/
def orchestrate_accounts (accounts : List AccountCredentials)
    (runForAccount : AccountCredentials → Except String AccountOutcome) :
    List (Except String AccountOutcome) :=
  accounts.map runForAccount

/-! ## Login step (`_step_login`, workflow.py lines 191-238)

One invocation of the decorated body with `dry_run = False`.  Each boolean
of the environment is the outcome of one awaited operation:
  - `fileExists`: `Path(self.storage_state_path).exists()`;
  - `gotoDeliveryOk`: the session-validation `page.goto(...#/delivery)`
    returns without raising;
  - `bounceToLogin`: `wait_for_url(lambda url: "/login" in url, 5000)`
    succeeds (the navigation bounced to the login surface) rather than
    timing out;
  - `markerVisible`: the invited-me tab becomes visible within 1s;
  - `gotoLoginOk`: `page.goto(login_url)` and the username-field wait
    succeed (failure here aborts before any credential fill);
  - `freshLoginOk`: fill/submit/wait-for-navigation-away succeed.
The outcome records ghost state for the claims: how many `unlink` calls
were made, whether credentials were filled, whether the fresh
interactive-login path was taken, and whether a fresh session was saved. -/

structure LoginEnv where
  hasStoragePath : Bool
  hasContext : Bool
  fileExists : Bool
  gotoDeliveryOk : Bool
  bounceToLogin : Bool
  markerVisible : Bool
  gotoLoginOk : Bool
  freshLoginOk : Bool
deriving DecidableEq, Repr

structure LoginOutcome where
  result : StepResult
  deletionsAttempted : Nat
  credentialEntry : Bool
  freshLoginTaken : Bool
  sessionSaved : Bool
deriving DecidableEq, Repr

/-- The interactive-login tail of `_step_login` (workflow.py lines
222-238), entered with `deletions` unlink calls already made.  A raise
anywhere is caught by the step's outer `except` and becomes a failure
`StepResult`. -/
def freshLoginPath (env : LoginEnv) (deletions : Nat) : LoginOutcome :=
  if env.gotoLoginOk = false then
    { result := { step := "login", success := false,
                  error := some "Échec de la connexion : navigation vers la page de connexion" },
      deletionsAttempted := deletions, credentialEntry := false,
      freshLoginTaken := true, sessionSaved := false }
  else if env.freshLoginOk then
    { result := { step := "login", success := true },
      deletionsAttempted := deletions, credentialEntry := true,
      freshLoginTaken := true,
      sessionSaved := env.hasContext && env.hasStoragePath }
  else
    { result := { step := "login", success := false,
                  error := some "Échec de la connexion : échec de l'authentification" },
      deletionsAttempted := deletions, credentialEntry := true,
      freshLoginTaken := true, sessionSaved := false }

/-- One invocation of `_step_login`'s body with `dry_run = False`
(workflow.py lines 197-238). -/
def stepLoginOnce (env : LoginEnv) : LoginOutcome :=
  if env.hasStoragePath && env.fileExists then
    if env.gotoDeliveryOk = false then
      { result := { step := "login", success := false,
                    error := some "Échec de la connexion : navigation de validation de session" },
        deletionsAttempted := 0, credentialEntry := false,
        freshLoginTaken := false, sessionSaved := false }
    else if env.bounceToLogin then
      freshLoginPath env 1
    else if env.markerVisible then
      { result := { step := "login", success := true, cached := true },
        deletionsAttempted := 0, credentialEntry := false,
        freshLoginTaken := false, sessionSaved := false }
    else
      freshLoginPath env 1
  else
    freshLoginPath env 0

/-! ## Characterization of the step loop -/

/-- The appended results are the attempted prefix of the step sequence, in
order. -/
theorem runLoop_steps_take : ∀ l : List StepExec,
    (runLoop l).1 = (l.map StepExec.result).take (runLoop l).1.length := by
  intro l
  induction l with
  | nil => rfl
  | cons se rest ih =>
    by_cases h : se.result.success
    · simp only [runLoop, h, if_pos, List.map_cons, List.length_cons,
        List.take_succ_cons, List.cons.injEq, true_and]
      exact ih
    · simp only [runLoop, if_neg h, List.map_cons, List.length_cons,
        List.length_nil, List.take_succ_cons, List.take_zero]

/-- Every appended result except possibly the last one succeeded. -/
theorem runLoop_dropLast_success : ∀ l : List StepExec,
    ∀ r ∈ (runLoop l).1.dropLast, r.success = true := by
  intro l
  induction l with
  | nil => intro r hr; simp [runLoop] at hr
  | cons se rest ih =>
    intro r hr
    by_cases h : se.result.success
    · simp only [runLoop, h, if_pos] at hr
      cases hq : (runLoop rest).1 with
      | nil => rw [hq] at hr; simp at hr
      | cons b t =>
        rw [hq] at hr ih
        rw [List.dropLast_cons₂] at hr
        rcases List.mem_cons.mp hr with h1 | h1
        · exact h1 ▸ h
        · exact ih r h1
    · simp only [runLoop, if_neg h] at hr
      simp at hr

/-- No exception is raised by the loop iff every appended result
succeeded. -/
theorem runLoop_error_none_iff : ∀ l : List StepExec,
    (runLoop l).2.2 = none ↔ ∀ r ∈ (runLoop l).1, r.success = true := by
  intro l
  induction l with
  | nil => simp [runLoop]
  | cons se rest ih =>
    by_cases h : se.result.success
    · simp only [runLoop, h, if_pos, List.mem_cons]
      constructor
      · intro hnone r hr
        rcases hr with hr | hr
        · exact hr ▸ h
        · exact (ih.mp hnone) r hr
      · intro hall
        exact ih.mpr (fun r hr => hall r (Or.inr hr))
    · simp only [runLoop, if_neg h, List.mem_cons]
      constructor
      · intro hnone; exact absurd hnone (by simp)
      · intro hall
        exact absurd (hall se.result (Or.inl rfl)) (by simp [h])

/-- If the loop stopped before exhausting the step sequence, the last
appended result failed. -/
theorem runLoop_short : ∀ l : List StepExec,
    (runLoop l).1.length < l.length →
    ∃ last, (runLoop l).1.getLast? = some last ∧ last.success = false := by
  intro l
  induction l with
  | nil => intro h; simp [runLoop] at h
  | cons se rest ih =>
    intro hlen
    by_cases h : se.result.success
    · simp only [runLoop, h, if_pos, List.length_cons] at hlen ⊢
      have hlt : (runLoop rest).1.length < rest.length := by omega
      obtain ⟨last, hlast, hfail⟩ := ih hlt
      refine ⟨last, ?_, hfail⟩
      cases hq : (runLoop rest).1 with
      | nil => rw [hq] at hlast; simp at hlast
      | cons b t =>
        rw [hq] at hlast
        exact hlast
    · simp only [runLoop, if_neg h]
      exact ⟨se.result, rfl, by simp [h]⟩

/-- If the loop raises, the raised message is the failure message of the
last appended result. -/
theorem runLoop_error_eq : ∀ (l : List StepExec) (m : String),
    (runLoop l).2.2 = some m →
    ∃ last, (runLoop l).1.getLast? = some last ∧ last.success = false ∧
      m = stepFailureMessage last := by
  intro l
  induction l with
  | nil => intro m hm; simp [runLoop] at hm
  | cons se rest ih =>
    intro m hm
    by_cases h : se.result.success
    · simp only [runLoop, h, if_pos] at hm
      obtain ⟨last, hlast, hfail, hmsg⟩ := ih m hm
      refine ⟨last, ?_, hfail, hmsg⟩
      simp only [runLoop, h, if_pos]
      cases hq : (runLoop rest).1 with
      | nil => rw [hq] at hlast; simp at hlast
      | cons b t =>
        rw [hq] at hlast
        exact hlast
    · simp only [runLoop, if_neg h, Option.some.injEq] at hm
      simp only [runLoop, if_neg h]
      exact ⟨se.result, rfl, by simp [h], hm.symm⟩

/-! ## Claim theorems -/

/-- C5: for every configured concurrency value `L` (including zero,
negative, and values above 10), the effective limit used by
`orchestrate_accounts` equals `max 1 (min L 10)` — clamped to `[1, 10]`. -/
theorem C5_concurrency_clamp (L : Int) :
    orchestratorLimit L = max 1 (min L 10) := by
  unfold orchestratorLimit
  split <;> omega

/-- C2: for a step wrapped by `async_retry` with maximum attempt count `A`
(inter-attempt delay is pure timing and does not affect the outcome): if
the step raises on attempts `1..A-1` but returns on attempt `A`, the
definitive outcome is that returned success and no failure is surfaced; if
it raises on all `A` attempts, exactly the one final failure is surfaced to
the caller. -/
theorem C2_retry_executor {E R : Type} (A : Nat)
    (attempts : Nat → Except E R) (hA : 1 ≤ A) :
    (∀ r : R, (∀ i, 1 ≤ i → i < A → ∃ e, attempts i = Except.error e) →
      attempts A = Except.ok r →
      async_retry attempts 1 A = Except.ok r)
    ∧ (∀ es : Nat → E,
      (∀ i, 1 ≤ i → i ≤ A → attempts i = Except.error (es i)) →
      async_retry attempts 1 A = Except.error (es A)) := by
  constructor
  · intro r hfail hok
    exact async_retry_ok_of_attempt attempts A r (A - 1) A 1 (by omega) hA
      le_rfl hfail hok
  · intro es hfail
    exact async_retry_error_of_all_fail attempts A es (A - 1) 1 (by omega) hA
      hfail

/-- A step behaviour that raises on attempts 1 and 2 and returns 42 on
attempt 3 (the workflow's `max_attempts=3`). -/
def retryDemoOk : Nat → Except Nat Nat :=
  fun i => if i < 3 then Except.error i else Except.ok 42

/-- A step behaviour that raises on every attempt. -/
def retryDemoFail : Nat → Except Nat Nat :=
  fun i => Except.error i

/-- Witness for C2 at `A = 3`: retried-then-successful and
all-attempts-failed runs of the concrete behaviours. -/
theorem C2_retry_executor_witness :
    async_retry retryDemoOk 1 3 = Except.ok 42 ∧
    async_retry retryDemoFail 1 3 = Except.error 3 := by
  constructor
  · exact (C2_retry_executor 3 retryDemoOk (by omega)).1 42
      (fun i h1 h2 => ⟨i, by unfold retryDemoOk; rw [if_pos h2]⟩)
      (by unfold retryDemoOk; rw [if_neg (by omega)])
  · exact (C2_retry_executor 3 retryDemoFail (by omega)).2 (fun i => i)
      (fun i _ _ => rfl)

/-- C3: for every order identifier and every account, a dry run of
`execute_submit_order` yields overall success with an empty step list and
performs no automation-surface interaction. -/
theorem C3_dry_run (username order_number : String) (env : WorkflowEnv)
    (t : Int) :
    (execute_submit_order username order_number true env t).1.success = true
    ∧ (execute_submit_order username order_number true env t).1.steps = []
    ∧ (execute_submit_order username order_number true env t).2 = [] :=
  ⟨rfl, rfl, rfl⟩

/-- C4: `orchestrate_accounts` returns exactly one outcome per input
account (outcome `i` is account `i`'s worker outcome, so an error in one
worker is captured as that account's `Except.error` placeholder and cannot
change any other account's outcome or escape the aggregate call), and the
`except` clause of `run_submit_order_for_account` converts a raised
exception into a failed fallback outcome for that account only. -/
theorem C4_scheduler_isolation (accounts : List AccountCredentials)
    (runForAccount : AccountCredentials → Except String AccountOutcome) :
    (orchestrate_accounts accounts runForAccount).length = accounts.length
    ∧ (∀ i : Nat, (orchestrate_accounts accounts runForAccount)[i]? =
        (accounts[i]?).map runForAccount)
    ∧ (∀ (account : AccountCredentials) (e : String),
        run_submit_order_for_account account (Except.error e) =
          AccountOutcome.fallback account.account_name e
        ∧ (run_submit_order_for_account account
            (Except.error e)).failedFor account.account_name) := by
  refine ⟨List.length_map _ _, fun i => ?_, fun account e => ⟨rfl, rfl⟩⟩
  simp [orchestrate_accounts, List.getElem?_map]

/-- C1: in a real (non-dry) run with a browser context, the report's step
list is the attempted steps of the fixed sequence in order (a prefix of
the sequence's results); every attempted step but possibly the last
succeeded (so nothing was attempted after a failure); overall success holds
iff every attempted step succeeded; and if the run stopped before
exhausting the sequence, the last attempted step is the failure it
short-circuited on. -/
theorem C1_short_circuit (username order_number : String) (env : WorkflowEnv)
    (t : Int) (hctx : env.hasContext = true) :
    (execute_submit_order username order_number false env t).1.steps =
      (env.stepExecs.map StepExec.result).take
        (execute_submit_order username order_number false env t).1.steps.length
    ∧ (∀ r ∈ (execute_submit_order username order_number false env t).1.steps.dropLast,
        r.success = true)
    ∧ ((execute_submit_order username order_number false env t).1.success = true ↔
        ∀ r ∈ (execute_submit_order username order_number false env t).1.steps,
          r.success = true)
    ∧ ((execute_submit_order username order_number false env t).1.steps.length <
          env.stepExecs.length →
        ∃ last,
          (execute_submit_order username order_number false env t).1.steps.getLast? =
            some last ∧ last.success = false) := by
  obtain ⟨hc, execs, emr, mrs, be⟩ := env
  cases hc with
  | false => exact absurd hctx (by simp)
  | true =>
    refine ⟨?_, ?_, ?_, ?_⟩
    · exact runLoop_steps_take execs
    · exact runLoop_dropLast_success execs
    · show ((runLoop execs).2.2).isNone = true ↔ _
      rw [Option.isNone_iff_eq_none]
      exact runLoop_error_none_iff execs
    · exact runLoop_short execs

/-- A five-step behaviour list whose third step fails. -/
def demoStepExecs : List StepExec :=
  [ { result := { step := "login", success := true },
      actions := [PageAction.goto "https://example.test/#/login"] },
    { result := { step := "navigate_to_delivery", success := true },
      actions := [PageAction.goto "https://example.test/#/delivery"] },
    { result := { step := "click_invited_me", success := false,
                  error := some "Délai d'attente dépassé" },
      actions := [PageAction.click ".invited-me"] },
    { result := { step := "enter_order_and_recognize", success := true },
      actions := [PageAction.fill "#order" "42"] },
    { result := { step := "confirm_order", success := true },
      actions := [PageAction.click "#confirm"] } ]

/-- A concrete run environment with a browser context and the failing
third step. -/
def demoEnv : WorkflowEnv :=
  { hasContext := true, stepExecs := demoStepExecs,
    enforceMinRun := false, minRunSeconds := 0, bodyElapsed := 2 }

/-- Witness for C1 at the concrete environment `demoEnv`. -/
theorem C1_short_circuit_witness :
    (execute_submit_order "alice" "42" false demoEnv 0).1.steps =
      (demoEnv.stepExecs.map StepExec.result).take
        (execute_submit_order "alice" "42" false demoEnv 0).1.steps.length
    ∧ (∀ r ∈ (execute_submit_order "alice" "42" false demoEnv 0).1.steps.dropLast,
        r.success = true)
    ∧ ((execute_submit_order "alice" "42" false demoEnv 0).1.success = true ↔
        ∀ r ∈ (execute_submit_order "alice" "42" false demoEnv 0).1.steps,
          r.success = true)
    ∧ ((execute_submit_order "alice" "42" false demoEnv 0).1.steps.length <
          demoEnv.stepExecs.length →
        ∃ last,
          (execute_submit_order "alice" "42" false demoEnv 0).1.steps.getLast? =
            some last ∧ last.success = false) :=
  C1_short_circuit "alice" "42" demoEnv 0 rfl

/-- No step-failure exception message is empty. -/
theorem stepFailureMessage_ne_empty (r : StepResult) :
    stepFailureMessage r ≠ "" := by
  intro h
  have := congrArg String.data h
  simp [stepFailureMessage, String.data_append] at this

/-- C9: `execute_submit_order` is total at its boundary — for every input
it returns a report (never raises, by construction of the embedding), the
report carries the account name, order number, dry-run flag, start and end
timestamps with a non-negative duration, and whenever it is not successful
(an exception was caught inside) its top-level error is a non-empty text. -/
theorem C9_report_totality (username order_number : String) (dry_run : Bool)
    (env : WorkflowEnv) (t : Int) :
    (execute_submit_order username order_number dry_run env t).1.account_name = username
    ∧ (execute_submit_order username order_number dry_run env t).1.order_number = order_number
    ∧ (execute_submit_order username order_number dry_run env t).1.dry_run = dry_run
    ∧ (execute_submit_order username order_number dry_run env t).1.start_time_utc = t
    ∧ (execute_submit_order username order_number dry_run env t).1.end_time_utc =
        t + (execute_submit_order username order_number dry_run env t).1.duration_seconds
    ∧ 0 ≤ (execute_submit_order username order_number dry_run env t).1.duration_seconds
    ∧ ((execute_submit_order username order_number dry_run env t).1.success = false →
        ∃ m, (execute_submit_order username order_number dry_run env t).1.error = some m
          ∧ m ≠ "") := by
  obtain ⟨hc, execs, emr, mrs, be⟩ := env
  cases dry_run with
  | true =>
    refine ⟨rfl, rfl, rfl, rfl, rfl, Int.natCast_nonneg _, ?_⟩
    intro h
    exact absurd h (by simp [execute_submit_order])
  | false =>
    cases hc with
    | false =>
      refine ⟨rfl, rfl, rfl, rfl, rfl, Int.natCast_nonneg _, ?_⟩
      intro _
      exact ⟨noContextMessage, rfl, by decide⟩
    | true =>
      refine ⟨rfl, rfl, rfl, rfl, rfl, Int.natCast_nonneg _, ?_⟩
      intro h
      have hne : (runLoop execs).2.2 ≠ none := by
        intro hnone
        have : ((runLoop execs).2.2).isNone = true := by
          rw [hnone]; rfl
        rw [show (execute_submit_order username order_number false
              ⟨true, execs, emr, mrs, be⟩ t).1.success =
            ((runLoop execs).2.2).isNone from rfl] at h
        rw [this] at h
        exact absurd h (by simp)
      obtain ⟨m, hm⟩ := Option.ne_none_iff_exists'.mp hne
      obtain ⟨last, _, _, hmsg⟩ := runLoop_error_eq execs m hm
      exact ⟨m, hm, hmsg ▸ stepFailureMessage_ne_empty last⟩

/-- Witness for C9 at a concrete failing run (`demoEnv`, not dry). -/
theorem C9_report_totality_witness :
    (execute_submit_order "alice" "42" false demoEnv 7).1.account_name = "alice"
    ∧ (execute_submit_order "alice" "42" false demoEnv 7).1.order_number = "42"
    ∧ (execute_submit_order "alice" "42" false demoEnv 7).1.dry_run = false
    ∧ (execute_submit_order "alice" "42" false demoEnv 7).1.start_time_utc = 7
    ∧ (execute_submit_order "alice" "42" false demoEnv 7).1.end_time_utc =
        7 + (execute_submit_order "alice" "42" false demoEnv 7).1.duration_seconds
    ∧ 0 ≤ (execute_submit_order "alice" "42" false demoEnv 7).1.duration_seconds
    ∧ ((execute_submit_order "alice" "42" false demoEnv 7).1.success = false →
        ∃ m, (execute_submit_order "alice" "42" false demoEnv 7).1.error = some m
          ∧ m ≠ "") :=
  C9_report_totality "alice" "42" false demoEnv 7

/-- The interactive-login tail keeps the deletion count it was entered
with and marks the fresh-login path taken. -/
theorem freshLoginPath_deletions (env : LoginEnv) (d : Nat) :
    (freshLoginPath env d).deletionsAttempted = d ∧
    (freshLoginPath env d).freshLoginTaken = true := by
  unfold freshLoginPath
  split_ifs <;> exact ⟨rfl, rfl⟩

/-- C7: when a session-validation navigation bounces back to the login
surface, the cached session file is deleted exactly once and the fresh
interactive-login path is taken; a run with no cached session file present
performs no deletion attempt at all. -/
theorem C7_stale_session_deletion :
    (∀ env : LoginEnv, env.hasStoragePath = true → env.fileExists = true →
      env.gotoDeliveryOk = true → env.bounceToLogin = true →
      (stepLoginOnce env).deletionsAttempted = 1 ∧
      (stepLoginOnce env).freshLoginTaken = true)
    ∧ (∀ env : LoginEnv, env.fileExists = false →
      (stepLoginOnce env).deletionsAttempted = 0) := by
  constructor
  · intro env h1 h2 h3 h4
    have hx : stepLoginOnce env = freshLoginPath env 1 := by
      unfold stepLoginOnce
      simp [h1, h2, h3, h4]
    rw [hx]
    exact freshLoginPath_deletions env 1
  · intro env h
    have hx : stepLoginOnce env = freshLoginPath env 0 := by
      unfold stepLoginOnce
      simp [h]
    rw [hx]
    exact (freshLoginPath_deletions env 0).1

/-- A run whose cached session proves stale: validation navigation bounces
back to the login surface. -/
def staleSessionEnv : LoginEnv :=
  { hasStoragePath := true, hasContext := true, fileExists := true,
    gotoDeliveryOk := true, bounceToLogin := true, markerVisible := false,
    gotoLoginOk := true, freshLoginOk := true }

/-- A subsequent run with no cached session file present. -/
def noCacheEnv : LoginEnv :=
  { hasStoragePath := true, hasContext := true, fileExists := false,
    gotoDeliveryOk := true, bounceToLogin := false, markerVisible := false,
    gotoLoginOk := true, freshLoginOk := true }

/-- Witness for C7 at the two concrete runs. -/
theorem C7_stale_session_deletion_witness :
    ((stepLoginOnce staleSessionEnv).deletionsAttempted = 1 ∧
      (stepLoginOnce staleSessionEnv).freshLoginTaken = true) ∧
    (stepLoginOnce noCacheEnv).deletionsAttempted = 0 :=
  ⟨C7_stale_session_deletion.1 staleSessionEnv rfl rfl rfl rfl,
   C7_stale_session_deletion.2 noCacheEnv rfl⟩

/-- A validated navigation that does not bounce to the login surface but
whose delivery-page marker element never becomes visible. -/
def nonBounceNoMarkerEnv : LoginEnv :=
  { hasStoragePath := true, hasContext := true, fileExists := true,
    gotoDeliveryOk := true, bounceToLogin := false, markerVisible := false,
    gotoLoginOk := true, freshLoginOk := true }

/-- Counterexample to C6 as stated: with a cached session and a validation
navigation that does not bounce back to the login surface, the step does
not return cached success when the delivery marker element is not visible —
it deletes the session and performs a fresh interactive login instead
(workflow.py lines 214-220). -/
theorem C6_counterexample :
    ¬ (∀ env : LoginEnv, env.hasStoragePath = true → env.fileExists = true →
        env.gotoDeliveryOk = true → env.bounceToLogin = false →
        (stepLoginOnce env).result.cached = true ∧
        (stepLoginOnce env).credentialEntry = false) := by
  intro h
  exact absurd (h nonBounceNoMarkerEnv rfl rfl rfl rfl) (by decide)

/-- C6 amended: whenever a cached SessionState exists, the step attempts
reuse by navigating to a protected page, and if that navigation does not
bounce back to the login surface AND the protected page's marker element
becomes visible, the step returns success with a cached flag and skips
credential entry. -/
theorem C6_cached_session_reuse (env : LoginEnv)
    (h1 : env.hasStoragePath = true) (h2 : env.fileExists = true)
    (h3 : env.gotoDeliveryOk = true) (h4 : env.bounceToLogin = false)
    (h5 : env.markerVisible = true) :
    (stepLoginOnce env).result.success = true ∧
    (stepLoginOnce env).result.cached = true ∧
    (stepLoginOnce env).credentialEntry = false ∧
    (stepLoginOnce env).freshLoginTaken = false := by
  unfold stepLoginOnce
  simp [h1, h2, h3, h4, h5]

/-- A run with a cached session that validates: no bounce, marker
visible. -/
def validCacheEnv : LoginEnv :=
  { hasStoragePath := true, hasContext := true, fileExists := true,
    gotoDeliveryOk := true, bounceToLogin := false, markerVisible := true,
    gotoLoginOk := true, freshLoginOk := true }

/-- Witness for the amended C6 at a concrete validating cached session. -/
theorem C6_cached_session_reuse_witness :
    (stepLoginOnce validCacheEnv).result.success = true ∧
    (stepLoginOnce validCacheEnv).result.cached = true ∧
    (stepLoginOnce validCacheEnv).credentialEntry = false ∧
    (stepLoginOnce validCacheEnv).freshLoginTaken = false :=
  C6_cached_session_reuse validCacheEnv rfl rfl rfl rfl rfl

/-- C8: both alert classifiers map "Already followed the order" to
success-informational; both map "Invalid parameter xyz" to a definite
failure whose surfaced reason names the invalid condition (the confirm
step's distinguished invalid-parameter reason; the recognize step's
"Code d'ordre invalide"); and any text matching neither of a step's phrase
families yields a generic failure with the raw alert text preserved
verbatim in the result. -/
theorem C8_alert_classification :
    ((classifyConfirmAlert "Already followed the order").success = true
      ∧ (∀ order_number : String,
          (classifyRecognizeAlert order_number "Already followed the order").success = true))
    ∧ ((classifyConfirmAlert "Invalid parameter xyz").success = false
      ∧ (classifyConfirmAlert "Invalid parameter xyz").error =
          some confirmInvalidParamReason
      ∧ (∀ order_number : String,
          (classifyRecognizeAlert order_number "Invalid parameter xyz").success = false
          ∧ (classifyRecognizeAlert order_number "Invalid parameter xyz").error =
              some ("Code d'ordre invalide : " ++ "Invalid parameter xyz")))
    ∧ (∀ msg : String, confirmAlreadyFamily msg = false →
        hasSub msg "Invalid parameter" = false →
        (classifyConfirmAlert msg).success = false
        ∧ (classifyConfirmAlert msg).error = some (confirmGenericReason msg)
        ∧ (classifyConfirmAlert msg).alert_message = some msg)
    ∧ (∀ (order_number msg : String), recognizeAlertSuccess msg = false →
        recognizeAlertError msg = false →
        (classifyRecognizeAlert order_number msg).success = false
        ∧ (classifyRecognizeAlert order_number msg).error =
            some ("La reconnaissance a échoué : " ++ msg)
        ∧ (classifyRecognizeAlert order_number msg).alert_message = some msg) := by
  refine ⟨⟨by decide, fun o => ?_⟩, ⟨by decide, by decide, fun o => ⟨?_, ?_⟩⟩,
    fun msg h1 h2 => ?_, fun o msg h1 h2 => ?_⟩
  · unfold classifyRecognizeAlert
    simp [show recognizeAlertSuccess "Already followed the order" = true from by decide]
  · unfold classifyRecognizeAlert
    simp [show recognizeAlertSuccess "Invalid parameter xyz" = false from by decide,
      show recognizeAlertError "Invalid parameter xyz" = true from by decide]
  · unfold classifyRecognizeAlert
    simp [show recognizeAlertSuccess "Invalid parameter xyz" = false from by decide,
      show recognizeAlertError "Invalid parameter xyz" = true from by decide]
  · unfold classifyConfirmAlert
    simp [h1, h2]
  · unfold classifyRecognizeAlert
    simp [h1, h2]

/-- Witness for C8's generic-failure clauses at a concrete alert text
matching neither phrase family. -/
theorem C8_alert_classification_witness :
    ((classifyConfirmAlert "Bonjour tout le monde").success = false
      ∧ (classifyConfirmAlert "Bonjour tout le monde").error =
          some (confirmGenericReason "Bonjour tout le monde")
      ∧ (classifyConfirmAlert "Bonjour tout le monde").alert_message =
          some "Bonjour tout le monde")
    ∧ ((classifyRecognizeAlert "42" "Bonjour tout le monde").success = false
      ∧ (classifyRecognizeAlert "42" "Bonjour tout le monde").error =
          some ("La reconnaissance a échoué : " ++ "Bonjour tout le monde")
      ∧ (classifyRecognizeAlert "42" "Bonjour tout le monde").alert_message =
          some "Bonjour tout le monde") :=
  ⟨C8_alert_classification.2.2.1 "Bonjour tout le monde" (by decide) (by decide),
   C8_alert_classification.2.2.2 "42" "Bonjour tout le monde" (by decide) (by decide)⟩

/-- The generic confirm-step reason, which embeds the raw alert text, is
never the distinguished invalid-parameter reason. -/
theorem confirmGenericReason_ne_invalid (msg : String) :
    confirmGenericReason msg ≠ confirmInvalidParamReason := by
  intro h
  have hd := congrArg String.data h
  unfold confirmGenericReason confirmInvalidParamReason at hd
  rw [String.data_append] at hd
  have hpre : "La confirmation a retourné une alerte : ".data <+:
      "Paramètre invalide détecté lors de la confirmation. Le numéro d'ordre est probablement expiré ou incorrect.".data :=
    ⟨msg.data, hd⟩
  exact absurd hpre (by decide)

/-- C10: in the confirm step, every observed alert outside the lowercased
already-followed family yields a failure; the lowercase example
"invalid parameter xyz" yields the generic alert-failure reason, not the
invalid-parameter reason; the distinguished invalid-parameter reason is
produced only when the raw alert contains the case-sensitive substring
"Invalid parameter"; and the recognize step's invalid/not-found family is
not consulted here ("order not found" is in that family yet still yields
the generic reason). -/
theorem C10_confirm_alert_case_sensitivity :
    (∀ msg : String, confirmAlreadyFamily msg = false →
      (classifyConfirmAlert msg).success = false)
    ∧ ((classifyConfirmAlert "invalid parameter xyz").success = false
      ∧ (classifyConfirmAlert "invalid parameter xyz").error =
          some (confirmGenericReason "invalid parameter xyz"))
    ∧ (∀ msg : String,
        (classifyConfirmAlert msg).error = some confirmInvalidParamReason →
        hasSub msg "Invalid parameter" = true)
    ∧ (recognizeAlertError "order not found" = true
      ∧ (classifyConfirmAlert "order not found").error =
          some (confirmGenericReason "order not found")) := by
  refine ⟨fun msg h => ?_, ⟨by decide, by decide⟩, fun msg h => ?_,
    by decide, by decide⟩
  · unfold classifyConfirmAlert
    simp [h]
  · unfold classifyConfirmAlert at h
    by_cases hf : confirmAlreadyFamily msg = true
    · simp [hf] at h
    · simp [hf] at h
      by_cases hs : hasSub msg "Invalid parameter" = true
      · exact hs
      · rw [Bool.not_eq_true] at hs
        exact absurd (h hs) (confirmGenericReason_ne_invalid msg)

/-- Witness for C10's quantified clauses: a non-family alert fails, and an
alert classified with the distinguished reason indeed contains the
case-sensitive "Invalid parameter" substring. -/
theorem C10_confirm_alert_case_sensitivity_witness :
    (classifyConfirmAlert "Bonsoir").success = false ∧
    hasSub "Invalid parameter abc" "Invalid parameter" = true :=
  ⟨C10_confirm_alert_case_sensitivity.1 "Bonsoir" (by decide),
   C10_confirm_alert_case_sensitivity.2.2.1 "Invalid parameter abc" (by decide)⟩
